import Mathlib

/-!
# Verification of the barcode-reader provider system

Shallow embedding of the pluggable barcode-provider architecture:
the `ProviderRegistry` (catalog, load cache, current provider,
persisted preference), the four provider variants
(`BarcodeDetectorProvider`, `ZXingProvider`, `ZXingWasmProvider`,
`DynamsoftProvider`), the `BarcodeScanner` (sampling loop,
image-file scanning, provider switching) and the `BenchmarkRunner`
(image/video benchmarking and report generation).

Provider instances are identified by numeric ids allocated by the
registry; per-instance lifecycle facts (which ids have had `destroy()`
invoked, how many times `init()` ran) are tracked explicitly in the
registry state.  Nondeterministic collaborator behaviour (module
loading, `init()` success, decode outcomes, canvas contexts, timing)
is supplied as explicit parameters.
-/

deriving instance DecidableEq for Except

/-- Descriptor of a registered provider (`ProviderInfo` minus the loader,
which is modelled by the explicit `init` outcome parameters). -/
structure ProviderInfo where
  name : String
  displayName : String
  deriving Repr, DecidableEq

/-- State of the `ProviderRegistry` singleton.  `cache` is the
`loadedProviders` map (insertion order preserved), `current` the
`currentProvider` reference, `destroyed` the set of instance ids whose
`destroy()` has been invoked, `initCalls` the number of `provider.init()`
invocations so far, and `persisted` the `localStorage` record
`barcode-scanner-provider`. -/
structure RegistryState where
  catalog : List ProviderInfo
  cache : List (String × Nat)
  current : Option Nat
  nextId : Nat
  destroyed : List Nat
  initCalls : Nat
  persisted : Option String
  deriving Repr, DecidableEq

/-- Lookup in the `loadedProviders` map (`Map.get` keyed by name). -/
def cacheLookup : List (String × Nat) → String → Option Nat
  | [], _ => none
  | (k, v) :: rest, n => if k = n then some v else cacheLookup rest n

/-- Lookup in the catalog (`this.providers.get(providerName)`). -/
def findInfo : List ProviderInfo → String → Option ProviderInfo
  | [], _ => none
  | i :: rest, n => if i.name = n then some i else findInfo rest n

/-- The names present in the catalog. -/
def catalogNames (s : RegistryState) : List String :=
  s.catalog.map ProviderInfo.name

/-- Every key of the load cache is a catalog name.  Holds in all
reachable registry states, since `loadProvider` is the only operation
that inserts into the cache and it only caches catalog names. -/
def RegistryInv (s : RegistryState) : Prop :=
  ∀ kv ∈ s.cache, kv.1 ∈ catalogNames s

/-- `ProviderRegistry.loadProvider`.  `initRes` is the outcome of the
freshly constructed provider's `init()` (the loader itself is assumed to
resolve; a loader rejection behaves like an `init` failure: the error
propagates and nothing is cached).  Returns the updated state and either
the instance id or the thrown error message. -/
def loadProvider (s : RegistryState) (name : String)
    (initRes : Except String Unit) : RegistryState × Except String Nat :=
  match cacheLookup s.cache name with
  | some id => (s, .ok id)
  | none =>
    match findInfo s.catalog name with
    | none => (s, .error ("Unknown provider: " ++ name))
    | some _ =>
      match initRes with
      | .ok _ =>
        ({ s with cache := s.cache ++ [(name, s.nextId)],
                  nextId := s.nextId + 1,
                  initCalls := s.initCalls + 1 }, .ok s.nextId)
      | .error m =>
        ({ s with nextId := s.nextId + 1,
                  initCalls := s.initCalls + 1 }, .error m)

/-- The destroy-first step of `setCurrentProvider`: `destroy?.()` on the
current provider when one exists. -/
def destroyCurrent (s : RegistryState) : RegistryState :=
  match s.current with
  | some id => { s with destroyed := id :: s.destroyed }
  | none => s

/-- `ProviderRegistry.setCurrentProvider`: destroys the current provider
first (if any), then delegates to `loadProvider`, then sets `current`
and best-effort persists the name (`persistOk` models whether the
`localStorage.setItem` call succeeds; its failure is swallowed). -/
def setCurrentProvider (s : RegistryState) (name : String)
    (initRes : Except String Unit) (persistOk : Bool) :
    RegistryState × Except String Nat :=
  match loadProvider (destroyCurrent s) name initRes with
  | (s2, .error m) => (s2, .error m)
  | (s2, .ok id) =>
    if persistOk then
      ({ s2 with current := some id, persisted := some name }, .ok id)
    else ({ s2 with current := some id }, .ok id)

/-- `ProviderRegistry.getPreferredProvider`: reads the persisted name,
falling back to `'zxing'` when unset, empty (`||` truthiness) or when
the read throws (`readOk = false`). -/
def getPreferredProvider (s : RegistryState) (readOk : Bool) : String :=
  if readOk then
    match s.persisted with
    | some p => if p = "" then "zxing" else p
    | none => "zxing"
  else "zxing"

/-- `ProviderRegistry.initializeDefaultProvider`. -/
def initializeDefaultProvider (s : RegistryState)
    (initRes : Except String Unit) (persistOk readOk : Bool) :
    RegistryState × Except String Nat :=
  setCurrentProvider s (getPreferredProvider s readOk) initRes persistOk

/-- The catalog registered by `registerDefaultProviders`, in
registration order. -/
def defaultCatalog : List ProviderInfo :=
  [⟨"zxing", "ZXing"⟩,
   ⟨"barcode-detector", "BarcodeDetector (Native)"⟩,
   ⟨"zxing-wasm", "ZXing (WASM)"⟩,
   ⟨"dynamsoft", "Dynamsoft SDK"⟩]

/-- A freshly constructed registry (no provider loaded or current yet,
nothing persisted). -/
def initialRegistry : RegistryState :=
  { catalog := defaultCatalog, cache := [], current := none,
    nextId := 0, destroyed := [], initCalls := 0, persisted := none }

/-! ## Provider variants

Each variant holds an optional handle to its underlying engine
(`detector` / `codeReader` / `readFn` / `reader`): `none` before `init()`
and after `destroy()`.  Scan operations return `Except String (Option
String)`: `.error` models a thrown error, `.ok none` the decode-empty
outcome.  Engine behaviour (decode results, canvas-context acquisition,
platform support) is passed in explicitly. -/

/-- `BarcodeDetectorProvider` (native `BarcodeDetector` API). -/
structure BarcodeDetectorProvider where
  detector : Option Unit
  deriving Repr, DecidableEq

/-- A freshly constructed `BarcodeDetectorProvider`. -/
def BarcodeDetectorProvider.new : BarcodeDetectorProvider := ⟨none⟩

/-- `BarcodeDetectorProvider.init`: fails when the `BarcodeDetector`
API is unsupported or the native constructor throws. -/
def BarcodeDetectorProvider.init (_ : BarcodeDetectorProvider)
    (supported ctorOk : Bool) : Except String BarcodeDetectorProvider :=
  if ¬ supported then
    .error "BarcodeDetector API not supported in this browser"
  else if ¬ ctorOk then .error "BarcodeDetector constructor failed"
  else .ok ⟨some ()⟩

/-- `BarcodeDetectorProvider.scanVideoFrame`.  `detect` is the native
detector outcome (a detect rejection is caught and yields null). -/
def BarcodeDetectorProvider.scanVideoFrame (p : BarcodeDetectorProvider)
    (videoWidth videoHeight : Nat) (detect : Except String (List String)) :
    Except String (Option String) :=
  match p.detector with
  | none => .error "BarcodeDetector provider not initialized"
  | some _ =>
    if videoWidth = 0 ∨ videoHeight = 0 then .ok none
    else
      match detect with
      | .error _ => .ok none
      | .ok barcodes => .ok barcodes.head?

/-- `BarcodeDetectorProvider.scanImage`. -/
def BarcodeDetectorProvider.scanImage (p : BarcodeDetectorProvider)
    (detect : Except String (List String)) : Except String (Option String) :=
  match p.detector with
  | none => .error "BarcodeDetector provider not initialized"
  | some _ =>
    match detect with
    | .error _ => .ok none
    | .ok barcodes => .ok barcodes.head?

/-- `BarcodeDetectorProvider.destroy`. -/
def BarcodeDetectorProvider.destroy (_ : BarcodeDetectorProvider) :
    BarcodeDetectorProvider := ⟨none⟩

/-- `ZXingProvider` (JS build of ZXing). -/
structure ZXingProvider where
  codeReader : Option Unit
  deriving Repr, DecidableEq

/-- A freshly constructed `ZXingProvider`. -/
def ZXingProvider.new : ZXingProvider := ⟨none⟩

/-- `ZXingProvider.init`: constructs a `BrowserMultiFormatReader`. -/
def ZXingProvider.init (_ : ZXingProvider) (ctorOk : Bool) :
    Except String ZXingProvider :=
  if ctorOk then .ok ⟨some ()⟩ else .error "ZXing reader construction failed"

/-- `ZXingProvider.scanVideoFrame`: not-initialized check, zero-size
frame check, canvas-context check, then decode (a decode throw is caught
and yields null). -/
def ZXingProvider.scanVideoFrame (p : ZXingProvider)
    (videoWidth videoHeight : Nat) (ctxOk : Bool)
    (decode : Except String String) : Except String (Option String) :=
  match p.codeReader with
  | none => .error "ZXing provider not initialized"
  | some _ =>
    if videoWidth = 0 ∨ videoHeight = 0 then .ok none
    else if ¬ ctxOk then .error "Cannot get canvas context"
    else
      match decode with
      | .ok t => .ok (some t)
      | .error _ => .ok none

/-- `ZXingProvider.scanImage`: for a non-canvas input the
canvas-context failure is thrown *inside* the try and hence caught,
yielding null, like a decode failure. -/
def ZXingProvider.scanImage (p : ZXingProvider) (isCanvas ctxOk : Bool)
    (decode : Except String String) : Except String (Option String) :=
  match p.codeReader with
  | none => .error "ZXing provider not initialized"
  | some _ =>
    if ¬ isCanvas ∧ ¬ ctxOk then .ok none
    else
      match decode with
      | .ok t => .ok (some t)
      | .error _ => .ok none

/-- `ZXingProvider.destroy`. -/
def ZXingProvider.destroy (_ : ZXingProvider) : ZXingProvider := ⟨none⟩

/-- `ZXingWasmProvider` (WASM build of ZXing). -/
structure ZXingWasmProvider where
  readFn : Option Unit
  deriving Repr, DecidableEq

/-- A freshly constructed `ZXingWasmProvider`. -/
def ZXingWasmProvider.new : ZXingWasmProvider := ⟨none⟩

/-- `ZXingWasmProvider.init`: assigns `readBarcodes` (cannot fail). -/
def ZXingWasmProvider.init (_ : ZXingWasmProvider) : ZXingWasmProvider :=
  ⟨some ()⟩

/-- `ZXingWasmProvider.scanVideoFrame`: not-initialised check, then the
bitmap/ImageData pipeline (whose rejection propagates), then the WASM
read inside a try (a throw, or indexing an empty result, yields null). -/
def ZXingWasmProvider.scanVideoFrame (p : ZXingWasmProvider)
    (bitmap : Except String Unit) (read : Except String (List String)) :
    Except String (Option String) :=
  match p.readFn with
  | none => .error "ZXing-WASM not initialised"
  | some _ =>
    match bitmap with
    | .error m => .error m
    | .ok _ =>
      match read with
      | .error _ => .ok none
      | .ok [] => .ok none
      | .ok (t :: _) => .ok (some t)

/-- `ZXingWasmProvider.scanImage`: not-initialised check first; the
canvas-context check on the non-canvas path is outside the try and
propagates; the read result goes through `res[0]?.text || null`
(truthiness: an empty decoded string also becomes null). -/
def ZXingWasmProvider.scanImage (p : ZXingWasmProvider)
    (isCanvas ctxOk : Bool) (read : Except String (List String)) :
    Except String (Option String) :=
  match p.readFn with
  | none => .error "ZXing-WASM not initialised"
  | some _ =>
    if ¬ isCanvas ∧ ¬ ctxOk then .error "Cannot get canvas context"
    else
      match read with
      | .error _ => .ok none
      | .ok [] => .ok none
      | .ok (t :: _) => .ok (if t = "" then none else some t)

/-- `ZXingWasmProvider.destroy`. -/
def ZXingWasmProvider.destroy (_ : ZXingWasmProvider) : ZXingWasmProvider :=
  ⟨none⟩

/-- `DynamsoftProvider` (commercial SDK). -/
structure DynamsoftProvider where
  reader : Option Unit
  deriving Repr, DecidableEq

/-- A freshly constructed `DynamsoftProvider`. -/
def DynamsoftProvider.new : DynamsoftProvider := ⟨none⟩

/-- `DynamsoftProvider.init`: license/WASM/router setup. -/
def DynamsoftProvider.init (_ : DynamsoftProvider) (setupOk : Bool) :
    Except String DynamsoftProvider :=
  if setupOk then .ok ⟨some ()⟩ else .error "Failed to load Dynamsoft SDK"

/-- `DynamsoftProvider.decodeCanvas`: not-initialised check, then the
capture call (whose rejection propagates — no try/catch here), then
PDF417-before-QRCode selection.  `capture` is the list of
`(formatString, text)` result items. -/
def DynamsoftProvider.decodeCanvas (p : DynamsoftProvider)
    (capture : Except String (List (String × String))) :
    Except String (Option String) :=
  match p.reader with
  | none => .error "Dynamsoft provider not initialised"
  | some _ =>
    match capture with
    | .error m => .error m
    | .ok items =>
      match items.find? (fun it => it.1 = "PDF417") with
      | some r => .ok (some r.2)
      | none =>
        match items.find? (fun it => it.1 = "QRCode") with
        | some r => .ok (some r.2)
        | none => .ok none

/-- `DynamsoftProvider.scanVideoFrame`. -/
def DynamsoftProvider.scanVideoFrame (p : DynamsoftProvider)
    (videoWidth : Nat) (ctxOk : Bool)
    (capture : Except String (List (String × String))) :
    Except String (Option String) :=
  match p.reader with
  | none => .error "Dynamsoft provider not initialised"
  | some _ =>
    if videoWidth = 0 then .ok none
    else if ¬ ctxOk then .error "Cannot get canvas context"
    else DynamsoftProvider.decodeCanvas p capture

/-- `DynamsoftProvider.scanImage`: on the non-canvas path the
canvas-context check precedes the not-initialised check inside
`decodeCanvas`. -/
def DynamsoftProvider.scanImage (p : DynamsoftProvider)
    (isCanvas ctxOk : Bool)
    (capture : Except String (List (String × String))) :
    Except String (Option String) :=
  if ¬ isCanvas ∧ ¬ ctxOk then .error "Cannot get canvas context"
  else DynamsoftProvider.decodeCanvas p capture

/-- `DynamsoftProvider.destroy`. -/
def DynamsoftProvider.destroy (_ : DynamsoftProvider) : DynamsoftProvider :=
  ⟨none⟩

/-! ## Scan engine (`BarcodeScanner`) -/

/-- `String.startsWith`, computed on the character list (the source
checks `file.type.startsWith('image/')`). -/
def startsWithChars : List Char → List Char → Bool
  | _, [] => true
  | [], _ :: _ => false
  | c :: cs, d :: ds => if c = d then startsWithChars cs ds else false

/-- JS truthiness of a `string | null` decode result (`if (result)`,
`if (!result)`): null and the empty string are falsy. -/
def truthy : Option String → Bool
  | none => false
  | some s => if s = "" then false else true

/-- Outcome of one sampling-loop iteration's `scanFrame` call: the
provider threw, or returned a `string | null` result. -/
inductive FrameOutcome
  | err (msg : String)
  | res (r : Option String)
  deriving Repr, DecidableEq

/-- `BarcodeScanner.startScanningLoop`, driven by the finite sequence of
frame outcomes the provider produces while `isScanning` stays set; the
end of the list models the external `stop()` that clears the flag.
Returns `(number of scanVideoFrame calls, number of success events)`:
each iteration scans one frame; a truthy result emits one success event
and returns without scheduling another iteration; a thrown error is
swallowed (debug-logged) and the next iteration is scheduled, as after a
falsy result. -/
def runLoop : List FrameOutcome → Nat × Nat
  | [] => (0, 0)
  | .err _ :: rest =>
    let p := runLoop rest
    (p.1 + 1, p.2)
  | .res r :: rest =>
    if truthy r then (1, 1)
    else
      let p := runLoop rest
      (p.1 + 1, p.2)

/-- State of the `BarcodeScanner`: the registry it delegates to, its own
cached `currentProvider` reference (an instance id), and the scanning
flag.  (Stream and DOM handles are collaborator state with no bearing on
the verified claims.) -/
structure ScannerState where
  reg : RegistryState
  engineProvider : Option Nat
  isScanning : Bool
  deriving Repr, DecidableEq

/-- `BarcodeScanner.stop` (media-track shutdown omitted). -/
def scannerStop (s : ScannerState) : ScannerState :=
  { s with isScanning := false }

/-- `BarcodeScanner.start`: no-op when already scanning; otherwise
 initializes the default provider when the engine has no cached one,
then requests the camera (`cameraOk`) and enters the scanning state.  A
provider-init or camera failure is emitted/rethrown and the engine stays
out of the scanning state. -/
def scannerStart (s : ScannerState) (initRes : Except String Unit)
    (persistOk readOk cameraOk : Bool) : ScannerState × Except String Unit :=
  if s.isScanning then (s, .ok ())
  else
    let step : ScannerState × Option String :=
      match s.engineProvider with
      | some _ => (s, none)
      | none =>
        match initializeDefaultProvider s.reg initRes persistOk readOk with
        | (r, .ok id) => ({ s with reg := r, engineProvider := some id }, none)
        | (r, .error m) => ({ s with reg := r }, some m)
    match step with
    | (s1, some m) => (s1, .error m)
    | (s1, none) =>
      if cameraOk then ({ s1 with isScanning := true }, .ok ())
      else (s1, .error "camera unavailable")

/-- The provider instance `BarcodeScanner.scanFrame` scans with: the
engine's *cached* reference (it throws when that is unset, and never
consults the registry's current pointer). -/
def scanFrameTarget (s : ScannerState) : Except String Nat :=
  match s.engineProvider with
  | none => .error "No provider initialized"
  | some id => .ok id

/-- `BarcodeScanner.setProvider`: stops the loop when scanning, switches
the registry's current provider, caches the new instance in the engine,
then restarts when it had been scanning. -/
def scannerSetProvider (s : ScannerState) (name : String)
    (initRes : Except String Unit) (persistOk cameraOk : Bool) :
    ScannerState × Except String Unit :=
  let wasScanning := s.isScanning
  let s1 := if wasScanning then scannerStop s else s
  match setCurrentProvider s1.reg name initRes persistOk with
  | (r, .error m) => ({ s1 with reg := r }, .error m)
  | (r, .ok id) =>
    let s2 := { s1 with reg := r, engineProvider := some id }
    if wasScanning then scannerStart s2 (.ok ()) persistOk true cameraOk
    else (s2, .ok ())

/-- Rejection messages of `scanImageFile` (verbatim from the source). -/
def msgInvalidFile : String := "Please select a valid image file."

/-- The no-code rejection message of `scanImageFile`. -/
def msgNoCode : String := "No barcode found in the image. Please try another image."

/-- The image-load rejection message of `scanImageFile`. -/
def msgLoadFailed : String := "Failed to load image. Please try another file."

/-- Collaborator behaviour for one `scanImageFile` call: the uploaded
file's MIME type, whether the decode canvas yields a 2d context, whether
the in-memory image loads, the provider's `scanImage` outcome, and
whether the thumbnail canvas yields a 2d context. -/
structure FileInput where
  fileType : String
  ctxOk : Bool
  imageLoads : Bool
  scanRes : Except String (Option String)
  thumbCtxOk : Bool
  deriving Repr, DecidableEq

/-- Observable outcome of a `scanImageFile` call: the settled promise
(rejection message or decoded text), how many times the provider's
`scanImage` was invoked, and whether an in-memory image was constructed. -/
structure ScanFileOutcome where
  result : Except String String
  providerScanCalls : Nat
  imageConstructed : Bool
  deriving Repr, DecidableEq

/-- `BarcodeScanner.scanImageFile`: validates the MIME type before
constructing any image; then builds the image/canvas, lazily initializes
the default provider when the engine has none cached, scans, and maps a
falsy result — or any throw inside the decode block, including a
provider-init failure — to the no-code rejection; on a truthy result it
resolves with the text (or rejects when the thumbnail context is
unavailable). -/
def scanImageFile (s : ScannerState) (inp : FileInput)
    (initRes : Except String Unit) (persistOk readOk : Bool) :
    ScannerState × ScanFileOutcome :=
  if ¬ startsWithChars inp.fileType.data "image/".data then
    (s, ⟨.error msgInvalidFile, 0, false⟩)
  else if ¬ inp.ctxOk then
    (s, ⟨.error "Cannot get canvas context", 0, true⟩)
  else if ¬ inp.imageLoads then
    (s, ⟨.error msgLoadFailed, 0, true⟩)
  else
    let getP : ScannerState × Except String Nat :=
      match s.engineProvider with
      | some id => (s, .ok id)
      | none =>
        match initializeDefaultProvider s.reg initRes persistOk readOk with
        | (r, .ok id) => ({ s with reg := r, engineProvider := some id }, .ok id)
        | (r, .error m) => ({ s with reg := r }, .error m)
    match getP with
    | (s1, .error _) => (s1, ⟨.error msgNoCode, 0, true⟩)
    | (s1, .ok _) =>
      match inp.scanRes with
      | .error _ => (s1, ⟨.error msgNoCode, 1, true⟩)
      | .ok r =>
        if truthy r then
          if inp.thumbCtxOk then (s1, ⟨.ok (r.getD ""), 1, true⟩)
          else (s1, ⟨.error "Cannot create thumbnail", 1, true⟩)
        else (s1, ⟨.error msgNoCode, 1, true⟩)

/-! ## Benchmark runner (`BenchmarkRunner`) -/

/-- One per-provider entry of a benchmark run. -/
structure BenchmarkResult where
  providerName : String
  success : Bool
  duration : Rat
  error : Option String
  result : Option String
  deriving Repr, DecidableEq

/-- The `summary` block of a `BenchmarkReport`. -/
structure ReportSummary where
  fastestProvider : Option String
  averageDuration : Rat
  successRate : Rat
  deriving Repr, DecidableEq

/-- `BenchmarkReport`. -/
structure BenchmarkReport where
  testName : String
  results : List BenchmarkResult
  summary : ReportSummary
  deriving Repr, DecidableEq

/-- `scanResult || undefined`: the stored `result` field drops null and
the empty string (JS truthiness). -/
def truthyOpt : Option String → Option String
  | none => none
  | some s => if s = "" then none else some s

/-- The `reduce` computing `fastestProvider`: strict-`<` comparison, so
the first of the successful results attaining the minimum duration wins. -/
def fastestOf : List BenchmarkResult → Option String
  | [] => none
  | h :: t =>
    some ((t.foldl
      (fun fastest current =>
        if current.duration < fastest.duration then current else fastest)
      h).providerName)

/-- `BenchmarkRunner.generateReport`: summary over the successful
entries only (fastest by minimum duration, mean duration, and
successes/total as the success rate). -/
def generateReport (testName : String) (results : List BenchmarkResult) :
    BenchmarkReport :=
  let successfulResults := results.filter (fun r => r.success)
  let fastestProvider := fastestOf successfulResults
  let averageDuration :=
    if successfulResults.length > 0 then
      (successfulResults.map (fun r => r.duration)).sum
        / (successfulResults.length : Rat)
    else 0
  let successRate :=
    if results.length > 0 then
      (successfulResults.length : Rat) / (results.length : Rat)
    else 0
  { testName := testName, results := results,
    summary := { fastestProvider := fastestProvider,
                 averageDuration := averageDuration,
                 successRate := successRate } }

/-- Collaborator behaviour for one provider in an image-scan benchmark:
the `init()` outcome of a fresh load, the wall-clock time spent inside
`registry.loadProvider`, the `scanImage` outcome, and the wall-clock
time of the `scanImage` call. -/
structure BenchEnv where
  initRes : Except String Unit
  loadDur : Rat
  scanRes : Except String (Option String)
  scanDur : Rat

/-- One iteration of the `benchmarkImageScan` provider loop: the timer
starts *before* `registry.loadProvider`, so a successful attempt records
`loadDur + scanDur`; a throw from load/init or from `scanImage` is
caught and recorded as a failed entry with zero duration
(`performance.now() - performance.now()`) and the error message. -/
def benchStep (s : RegistryState) (env : String → BenchEnv)
    (info : ProviderInfo) : RegistryState × BenchmarkResult :=
  let e := env info.name
  match loadProvider s info.name e.initRes with
  | (s1, .error m) =>
    (s1, { providerName := info.displayName, success := false,
           duration := 0, error := some m, result := none })
  | (s1, .ok _) =>
    match e.scanRes with
    | .error m =>
      (s1, { providerName := info.displayName, success := false,
             duration := 0, error := some m, result := none })
    | .ok r =>
      (s1, { providerName := info.displayName, success := r.isSome,
             duration := e.loadDur + e.scanDur, error := none,
             result := truthyOpt r })

/-- `BenchmarkRunner.benchmarkImageScan`: loads the file once
(`imageOk`; a load failure rejects the whole run before any registry
interaction), then folds `benchStep` over the catalog in registration
order and generates the report. -/
def benchmarkImageScan (s : RegistryState) (imageOk : Bool)
    (env : String → BenchEnv) (fileName : String) :
    RegistryState × Except String BenchmarkReport :=
  if ¬ imageOk then (s, .error "Failed to load image")
  else
    let folded := s.catalog.foldl
      (fun (acc : RegistryState × List BenchmarkResult) info =>
        let step := benchStep acc.1 env info
        (step.1, acc.2 ++ [step.2]))
      (s, [])
    (folded.1, .ok (generateReport ("Image Scan - " ++ fileName) folded.2))

/-- Collaborator behaviour for one provider in a video-frame benchmark:
the `init()` outcome of a fresh load plus per-iteration `scanVideoFrame`
outcomes and durations. -/
structure VideoEnv where
  initRes : Except String Unit
  iterRes : Nat → Except String (Option String)
  iterDur : Nat → Rat

/-- One iteration entry of the per-provider video loop. -/
def videoIterResult (e : VideoEnv) (displayName : String) (i : Nat) :
    BenchmarkResult :=
  match e.iterRes i with
  | .error m =>
    { providerName := displayName, success := false, duration := 0,
      error := some m, result := none }
  | .ok r =>
    { providerName := displayName, success := r.isSome,
      duration := e.iterDur i, error := none, result := truthyOpt r }

/-- The per-provider step of `benchmarkVideoFrame`: load the provider
(a load/init throw yields one failed entry), run `iterations` sequential
scan attempts, then fold them into a single aggregate entry (average
duration over that provider's successful attempts, an
`"k/n successful"` result string, or an `'All iterations failed'`
error). -/
def videoStep (s : RegistryState) (env : String → VideoEnv)
    (iterations : Nat) (info : ProviderInfo) :
    RegistryState × BenchmarkResult :=
  let e := env info.name
  match loadProvider s info.name e.initRes with
  | (s1, .error m) =>
    (s1, { providerName := info.displayName, success := false,
           duration := 0, error := some m, result := none })
  | (s1, .ok _) =>
    let providerResults :=
      (List.range iterations).map (videoIterResult e info.displayName)
    let successfulResults := providerResults.filter (fun r => r.success)
    let averageDuration :=
      if successfulResults.length > 0 then
        (successfulResults.map (fun r => r.duration)).sum
          / (successfulResults.length : Rat)
      else 0
    (s1, { providerName := info.displayName,
           success := successfulResults.length > 0,
           duration := averageDuration,
           result :=
             if successfulResults.length > 0 then
               some (toString successfulResults.length ++ "/"
                 ++ toString iterations ++ " successful")
             else none,
           error :=
             if successfulResults.length = 0 then
               some "All iterations failed"
             else none })

/-- `BenchmarkRunner.benchmarkVideoFrame`. -/
def benchmarkVideoFrame (s : RegistryState) (env : String → VideoEnv)
    (iterations : Nat) : RegistryState × BenchmarkReport :=
  let folded := s.catalog.foldl
    (fun (acc : RegistryState × List BenchmarkResult) info =>
      let step := videoStep acc.1 env iterations info
      (step.1, acc.2 ++ [step.2]))
    (s, [])
  (folded.1,
   generateReport
     ("Video Frame Scan (" ++ toString iterations ++ " iterations)")
     folded.2)

/-! ## Helper lemmas -/

theorem cacheLookup_eq_none {c : List (String × Nat)} {n : String}
    (h : ∀ kv ∈ c, kv.1 ≠ n) : cacheLookup c n = none := by
  induction c with
  | nil => rfl
  | cons kv rest ih =>
    obtain ⟨k, v⟩ := kv
    simp only [cacheLookup]
    rw [if_neg (h (k, v) (List.mem_cons_self _ _))]
    exact ih fun x hx => h x (List.mem_cons_of_mem _ hx)

theorem findInfo_eq_none {l : List ProviderInfo} {n : String}
    (h : n ∉ l.map ProviderInfo.name) : findInfo l n = none := by
  induction l with
  | nil => rfl
  | cons i rest ih =>
    rw [List.map_cons, List.mem_cons] at h
    push_neg at h
    simp only [findInfo]
    rw [if_neg fun hh => h.1 hh.symm]
    exact ih h.2

theorem findInfo_ne_none_of_mem {l : List ProviderInfo} {n : String}
    (h : n ∈ l.map ProviderInfo.name) : findInfo l n ≠ none := by
  induction l with
  | nil => simp at h
  | cons i rest ih =>
    rw [List.map_cons, List.mem_cons] at h
    simp only [findInfo]
    by_cases hn : i.name = n
    · rw [if_pos hn]; exact Option.some_ne_none _
    · rw [if_neg hn]
      exact ih (h.resolve_left fun hh => hn hh.symm)

theorem cacheLookup_none_of_inv {s : RegistryState} {n : String}
    (hinv : RegistryInv s) (h : n ∉ catalogNames s) :
    cacheLookup s.cache n = none :=
  cacheLookup_eq_none fun kv hkv heq => h (heq ▸ hinv kv hkv)

theorem loadProvider_current (s : RegistryState) (n : String)
    (i : Except String Unit) : (loadProvider s n i).1.current = s.current := by
  unfold loadProvider
  cases hc : cacheLookup s.cache n with
  | some id => rfl
  | none =>
    cases hf : findInfo s.catalog n with
    | none => rfl
    | some info => cases i <;> rfl

theorem loadProvider_destroyed (s : RegistryState) (n : String)
    (i : Except String Unit) :
    (loadProvider s n i).1.destroyed = s.destroyed := by
  unfold loadProvider
  cases hc : cacheLookup s.cache n with
  | some id => rfl
  | none =>
    cases hf : findInfo s.catalog n with
    | none => rfl
    | some info => cases i <;> rfl

theorem destroyCurrent_destroyed_mem {s : RegistryState} {id : Nat}
    (h : s.current = some id) : id ∈ (destroyCurrent s).destroyed := by
  unfold destroyCurrent
  rw [h]
  exact List.mem_cons_self _ _

theorem setCurrentProvider_destroyed_mem {s : RegistryState} {id : Nat}
    (h : s.current = some id) (n : String) (i : Except String Unit)
    (p : Bool) : id ∈ (setCurrentProvider s n i p).1.destroyed := by
  have hmem := destroyCurrent_destroyed_mem h
  have hd := loadProvider_destroyed (destroyCurrent s) n i
  unfold setCurrentProvider
  rcases hl : loadProvider (destroyCurrent s) n i with ⟨s2, r⟩
  rw [hl] at hd
  have hs2 : s2.destroyed = (destroyCurrent s).destroyed := by simpa using hd
  cases r with
  | error m =>
    simp only [hl]
    rw [show (s2, Except.error (ε := String) (α := Nat) m).1.destroyed = s2.destroyed from rfl, hs2]
    exact hmem
  | ok v =>
    cases p with
    | false => simp only [hl, Bool.false_eq_true, if_false]; rw [show ({ s2 with current := some v } : RegistryState).destroyed = s2.destroyed from rfl, hs2]; exact hmem
    | true => simp only [hl, if_true]; rw [show ({ s2 with current := some v, persisted := some n } : RegistryState).destroyed = s2.destroyed from rfl, hs2]; exact hmem

/-! ## Concrete scenario states -/

/-- Registry after `setCurrentProvider('zxing')` from a fresh start:
instance 0 is loaded, cached under `"zxing"` and current. -/
def regAfterZxing : RegistryState :=
  (setCurrentProvider initialRegistry "zxing" (.ok ()) true).1

/-- Registry after the further switch `setCurrentProvider('zxing-wasm')`:
instance 0 has been destroyed, instance 1 is current, and the cache still
holds both entries. -/
def regAfterSwitch : RegistryState :=
  (setCurrentProvider regAfterZxing "zxing-wasm" (.ok ()) true).1

/-! ## C1 -/

/-- C1: the claim states that `setCurrent` invalidates the load-cache
entry of the provider it destroys, so that a later `load` of that name
constructs and initializes a fresh instance and never returns the
destroyed one.  The code violates this: after `setCurrent('zxing')`
followed by `setCurrent('zxing-wasm')` — which destroys instance 0 —
`loadProvider('zxing')` finds the stale cache entry and returns the
destroyed instance 0, with the state (in particular `initCalls`)
unchanged, i.e. no new construction or initialization happens.  This
contradicts the repository's own test (`provider.test.ts`, "should
properly handle provider switching and re-initialization"), which
requires the switch-back to produce a different, fresh instance. -/
theorem c1_load_after_switch_returns_destroyed_instance :
    loadProvider regAfterSwitch "zxing" (.ok ()) = (regAfterSwitch, .ok 0) ∧
    0 ∈ regAfterSwitch.destroyed ∧
    cacheLookup regAfterSwitch.cache "zxing" = some 0 ∧
    regAfterSwitch.current = some 1 := by
  decide

/-! ## C2 -/

/-- C2 counterexample: with instance 0 current (and not destroyed),
`setCurrent('nope')` for the unknown name `'nope'` fails with the
unknown-provider error and leaves the current-provider *reference*
unchanged — but instance 0 *has* been destroyed by the call, because
`setCurrentProvider` runs `destroy?.()` before validating the name.
This falsifies the claim's atomicity clause ("the previously current
provider instance has not been destroyed"). -/
theorem c2_counterexample :
    regAfterZxing.current = some 0 ∧
    regAfterZxing.destroyed = [] ∧
    (setCurrentProvider regAfterZxing "nope" (.ok ()) true).2 =
      .error "Unknown provider: nope" ∧
    (setCurrentProvider regAfterZxing "nope" (.ok ()) true).1.current = some 0 ∧
    0 ∈ (setCurrentProvider regAfterZxing "nope" (.ok ()) true).1.destroyed := by
  decide

/-- C2 amended: for every name not in the catalog (in a state whose load
cache only holds catalog names, as in every reachable state),
`setCurrent` fails with the unknown-provider error and leaves the
current-provider *reference* unchanged, but it has already invoked
`destroy()` on the previously current instance before the name check. -/
theorem c2_amended_unknown_setCurrent (s : RegistryState) (name : String)
    (initRes : Except String Unit) (persistOk : Bool)
    (hinv : RegistryInv s) (hname : name ∉ catalogNames s) :
    (setCurrentProvider s name initRes persistOk).2 =
      .error ("Unknown provider: " ++ name) ∧
    (setCurrentProvider s name initRes persistOk).1.current = s.current ∧
    (∀ id, s.current = some id →
      id ∈ (setCurrentProvider s name initRes persistOk).1.destroyed) := by
  have hcache : cacheLookup (destroyCurrent s).cache name = none := by
    have h1 : (destroyCurrent s).cache = s.cache := by
      unfold destroyCurrent; cases s.current <;> rfl
    rw [h1]
    exact cacheLookup_none_of_inv hinv hname
  have hfind : findInfo (destroyCurrent s).catalog name = none := by
    have h1 : (destroyCurrent s).catalog = s.catalog := by
      unfold destroyCurrent; cases s.current <;> rfl
    rw [h1]
    exact findInfo_eq_none hname
  have hload : loadProvider (destroyCurrent s) name initRes =
      (destroyCurrent s, .error ("Unknown provider: " ++ name)) := by
    unfold loadProvider
    rw [hcache, hfind]
  have hcur : (destroyCurrent s).current = s.current := by
    unfold destroyCurrent
    cases h : s.current <;> simp [h]
  refine ⟨?_, ?_, ?_⟩
  · unfold setCurrentProvider
    rw [hload]
  · unfold setCurrentProvider
    rw [hload]
    exact hcur
  · intro id hid
    exact setCurrentProvider_destroyed_mem hid name initRes persistOk

/-- Witness for the amended C2, at the reachable state `regAfterZxing`
and the unknown name `'nope'`. -/
theorem c2_amended_unknown_setCurrent_witness :
    (setCurrentProvider regAfterZxing "nope" (.ok ()) true).2 =
      .error ("Unknown provider: " ++ "nope") ∧
    (setCurrentProvider regAfterZxing "nope" (.ok ()) true).1.current =
      regAfterZxing.current ∧
    (∀ id, regAfterZxing.current = some id →
      id ∈ (setCurrentProvider regAfterZxing "nope" (.ok ()) true).1.destroyed) :=
  c2_amended_unknown_setCurrent regAfterZxing "nope" (.ok ()) true
    (by
      intro kv hkv
      have hc : regAfterZxing.cache = [("zxing", 0)] := by decide
      rw [hc] at hkv
      rcases List.mem_singleton.mp hkv with rfl
      decide)
    (by decide)

/-! ## C3 -/

/-- C3: for every provider variant registered in the catalog
(`BarcodeDetectorProvider`, `ZXingProvider`, `ZXingWasmProvider`,
`DynamsoftProvider`), calling `scanVideoFrame` or `scanImage` on a
freshly constructed instance (before `init()` has succeeded) or on any
destroyed instance throws that provider's not-initialized error rather
than returning a result or null — whatever the frame dimensions, decode
outcomes or canvas contexts.  The single environmental proviso is
Dynamsoft's `scanImage` on a non-canvas input, whose canvas-context
acquisition (an external collaborator step) must succeed for control to
reach the provider's own check. -/
theorem c3_scan_before_init_or_after_destroy_throws :
    (∀ vw vh d, BarcodeDetectorProvider.new.scanVideoFrame vw vh d =
       .error "BarcodeDetector provider not initialized") ∧
    (∀ p vw vh d, (BarcodeDetectorProvider.destroy p).scanVideoFrame vw vh d =
       .error "BarcodeDetector provider not initialized") ∧
    (∀ d, BarcodeDetectorProvider.new.scanImage d =
       .error "BarcodeDetector provider not initialized") ∧
    (∀ p d, (BarcodeDetectorProvider.destroy p).scanImage d =
       .error "BarcodeDetector provider not initialized") ∧
    (∀ vw vh c d, ZXingProvider.new.scanVideoFrame vw vh c d =
       .error "ZXing provider not initialized") ∧
    (∀ p vw vh c d, (ZXingProvider.destroy p).scanVideoFrame vw vh c d =
       .error "ZXing provider not initialized") ∧
    (∀ ic c d, ZXingProvider.new.scanImage ic c d =
       .error "ZXing provider not initialized") ∧
    (∀ p ic c d, (ZXingProvider.destroy p).scanImage ic c d =
       .error "ZXing provider not initialized") ∧
    (∀ b r, ZXingWasmProvider.new.scanVideoFrame b r =
       .error "ZXing-WASM not initialised") ∧
    (∀ p b r, (ZXingWasmProvider.destroy p).scanVideoFrame b r =
       .error "ZXing-WASM not initialised") ∧
    (∀ ic c r, ZXingWasmProvider.new.scanImage ic c r =
       .error "ZXing-WASM not initialised") ∧
    (∀ p ic c r, (ZXingWasmProvider.destroy p).scanImage ic c r =
       .error "ZXing-WASM not initialised") ∧
    (∀ vw c cap, DynamsoftProvider.new.scanVideoFrame vw c cap =
       .error "Dynamsoft provider not initialised") ∧
    (∀ p vw c cap, (DynamsoftProvider.destroy p).scanVideoFrame vw c cap =
       .error "Dynamsoft provider not initialised") ∧
    (∀ ic c cap, ic = true ∨ c = true →
       DynamsoftProvider.new.scanImage ic c cap =
         .error "Dynamsoft provider not initialised") ∧
    (∀ p ic c cap, ic = true ∨ c = true →
       (DynamsoftProvider.destroy p).scanImage ic c cap =
         .error "Dynamsoft provider not initialised") := by
  refine ⟨?_, ?_, ?_, ?_, ?_, ?_, ?_, ?_, ?_, ?_, ?_, ?_, ?_, ?_, ?_, ?_⟩
  · intro vw vh d; rfl
  · intro p vw vh d; rfl
  · intro d; rfl
  · intro p d; rfl
  · intro vw vh c d; rfl
  · intro p vw vh c d; rfl
  · intro ic c d; rfl
  · intro p ic c d; rfl
  · intro b r; rfl
  · intro p b r; rfl
  · intro ic c r; rfl
  · intro p ic c r; rfl
  · intro vw c cap; rfl
  · intro p vw c cap; rfl
  · intro ic c cap h
    rcases h with h | h <;>
      simp [DynamsoftProvider.scanImage, DynamsoftProvider.new,
        DynamsoftProvider.decodeCanvas, h]
  · intro p ic c cap h
    rcases h with h | h <;>
      simp [DynamsoftProvider.scanImage, DynamsoftProvider.destroy,
        DynamsoftProvider.decodeCanvas, h]

/-- Witness for C3, instantiating each hypothesized conjunct at a
concrete input (Dynamsoft `scanImage` on a canvas input, and on an
image input with an available canvas context). -/
theorem c3_scan_witness :
    DynamsoftProvider.new.scanImage true false (.ok [("QRCode", "hi")]) =
      .error "Dynamsoft provider not initialised" ∧
    (DynamsoftProvider.destroy ⟨some ()⟩).scanImage false true (.ok []) =
      .error "Dynamsoft provider not initialised" ∧
    BarcodeDetectorProvider.new.scanVideoFrame 640 480 (.ok ["qr-text"]) =
      .error "BarcodeDetector provider not initialized" :=
  ⟨c3_scan_before_init_or_after_destroy_throws.2.2.2.2.2.2.2.2.2.2.2.2.2.2.1
     true false (.ok [("QRCode", "hi")]) (Or.inl rfl),
   c3_scan_before_init_or_after_destroy_throws.2.2.2.2.2.2.2.2.2.2.2.2.2.2.2
     ⟨some ()⟩ false true (.ok []) (Or.inr rfl),
   c3_scan_before_init_or_after_destroy_throws.1 640 480 (.ok ["qr-text"])⟩

/-! ## C4 -/

/-- C4: `loadProvider` postconditions.  (a) a cache hit returns the
cached instance with the state — in particular `initCalls` — untouched;
(b) a name outside the catalog (in a state whose cache only holds
catalog names, as every reachable state does) fails with the
unknown-provider error and changes nothing; (c) a cache miss on a
catalog name with succeeding `init()` constructs the fresh instance,
initializes it once, caches it under the name and returns it; (d) when
`init()` throws, the error propagates and no instance is cached under
the name. -/
theorem c4_loadProvider_postconditions (s : RegistryState) (name : String)
    (initRes : Except String Unit) :
    (∀ id, cacheLookup s.cache name = some id →
       loadProvider s name initRes = (s, .ok id)) ∧
    (RegistryInv s → name ∉ catalogNames s →
       loadProvider s name initRes =
         (s, .error ("Unknown provider: " ++ name))) ∧
    (cacheLookup s.cache name = none → name ∈ catalogNames s →
       initRes = .ok () →
       loadProvider s name initRes =
         ({ s with cache := s.cache ++ [(name, s.nextId)],
                   nextId := s.nextId + 1,
                   initCalls := s.initCalls + 1 }, .ok s.nextId)) ∧
    (∀ m, cacheLookup s.cache name = none → name ∈ catalogNames s →
       initRes = .error m →
       loadProvider s name initRes =
         ({ s with nextId := s.nextId + 1,
                   initCalls := s.initCalls + 1 }, .error m) ∧
       (loadProvider s name initRes).1.cache = s.cache) := by
  refine ⟨?_, ?_, ?_, ?_⟩
  · intro id hid
    unfold loadProvider
    rw [hid]
  · intro hinv hname
    unfold loadProvider
    rw [cacheLookup_none_of_inv hinv hname, findInfo_eq_none hname]
  · intro hmiss hmem hinit
    rcases hf : findInfo s.catalog name with _ | info
    · exact absurd hf (findInfo_ne_none_of_mem hmem)
    · unfold loadProvider
      rw [hmiss, hf, hinit]
  · intro m hmiss hmem hinit
    rcases hf : findInfo s.catalog name with _ | info
    · exact absurd hf (findInfo_ne_none_of_mem hmem)
    · constructor
      · unfold loadProvider
        rw [hmiss, hf, hinit]
      · unfold loadProvider
        rw [hmiss, hf, hinit]

/-- Witness for C4: the four postconditions exercised on concrete
reachable states — a cache hit on `regAfterZxing`, an unknown name on
the fresh registry, and a fresh load of `'barcode-detector'` with
succeeding and with failing `init()`. -/
theorem c4_loadProvider_postconditions_witness :
    loadProvider regAfterZxing "zxing" (.ok ()) = (regAfterZxing, .ok 0) ∧
    loadProvider initialRegistry "nope" (.ok ()) =
      (initialRegistry, .error ("Unknown provider: " ++ "nope")) ∧
    loadProvider regAfterZxing "barcode-detector" (.ok ()) =
      ({ regAfterZxing with
           cache := regAfterZxing.cache ++ [("barcode-detector", regAfterZxing.nextId)],
           nextId := regAfterZxing.nextId + 1,
           initCalls := regAfterZxing.initCalls + 1 }, .ok regAfterZxing.nextId) ∧
    loadProvider regAfterZxing "barcode-detector" (.error "boom") =
      ({ regAfterZxing with
           nextId := regAfterZxing.nextId + 1,
           initCalls := regAfterZxing.initCalls + 1 }, .error "boom") :=
  ⟨(c4_loadProvider_postconditions regAfterZxing "zxing" (.ok ())).1 0 (by decide),
   (c4_loadProvider_postconditions initialRegistry "nope" (.ok ())).2.1
     (by intro kv hkv; simp [initialRegistry] at hkv) (by decide),
   (c4_loadProvider_postconditions regAfterZxing "barcode-detector" (.ok ())).2.2.1
     (by decide) (by decide) rfl,
   ((c4_loadProvider_postconditions regAfterZxing "barcode-detector"
       (.error "boom")).2.2.2 "boom" (by decide) (by decide) rfl).1⟩

/-! ## C5 -/

theorem benchStep_current (s : RegistryState) (env : String → BenchEnv)
    (info : ProviderInfo) : (benchStep s env info).1.current = s.current := by
  have hc := loadProvider_current s info.name (env info.name).initRes
  unfold benchStep
  rcases hl : loadProvider s info.name (env info.name).initRes with ⟨s1, r⟩
  rw [hl] at hc
  cases r with
  | error m => simp only [hl]; simpa using hc
  | ok id =>
    rcases hs : (env info.name).scanRes with m | v <;>
      simp only [hl, hs] <;> simpa using hc

theorem videoStep_current (s : RegistryState) (env : String → VideoEnv)
    (iterations : Nat) (info : ProviderInfo) :
    (videoStep s env iterations info).1.current = s.current := by
  have hc := loadProvider_current s info.name (env info.name).initRes
  unfold videoStep
  rcases hl : loadProvider s info.name (env info.name).initRes with ⟨s1, r⟩
  rw [hl] at hc
  cases r with
  | error m => simp only [hl]; simpa using hc
  | ok id => simp only [hl]; simpa using hc

theorem benchFold_current (env : String → BenchEnv)
    (l : List ProviderInfo) :
    ∀ acc : RegistryState × List BenchmarkResult,
    (l.foldl (fun acc info =>
        let step := benchStep acc.1 env info
        (step.1, acc.2 ++ [step.2])) acc).1.current = acc.1.current := by
  induction l with
  | nil => intro acc; rfl
  | cons info rest ih =>
    intro acc
    rw [List.foldl_cons, ih]
    exact benchStep_current acc.1 env info

theorem videoFold_current (env : String → VideoEnv) (iterations : Nat)
    (l : List ProviderInfo) :
    ∀ acc : RegistryState × List BenchmarkResult,
    (l.foldl (fun acc info =>
        let step := videoStep acc.1 env iterations info
        (step.1, acc.2 ++ [step.2])) acc).1.current = acc.1.current := by
  induction l with
  | nil => intro acc; rfl
  | cons info rest ih =>
    intro acc
    rw [List.foldl_cons, ih]
    exact videoStep_current acc.1 env iterations info

/-- C5: for every input file (whether or not it loads), every
environment and every registry state, `benchmarkImageScan` and
`benchmarkVideoFrame` leave the registry's current-provider reference
exactly as it was: benchmarking goes through `loadProvider` only, which
may populate the load cache and initialize instances but never touches
`currentProvider`. -/
theorem c5_benchmark_preserves_current :
    (∀ (s : RegistryState) (imageOk : Bool) (env : String → BenchEnv)
       (fileName : String),
       (benchmarkImageScan s imageOk env fileName).1.current = s.current) ∧
    (∀ (s : RegistryState) (env : String → VideoEnv) (iterations : Nat),
       (benchmarkVideoFrame s env iterations).1.current = s.current) := by
  constructor
  · intro s imageOk env fileName
    unfold benchmarkImageScan
    cases imageOk with
    | false => rfl
    | true => simpa using benchFold_current env s.catalog (s, [])
  · intro s env iterations
    unfold benchmarkVideoFrame
    simpa using videoFold_current env iterations s.catalog (s, [])

/-! ## C6 -/

theorem fastest_foldl_spec (t : List BenchmarkResult) :
    ∀ h : BenchmarkResult,
      (t.foldl (fun fastest current =>
          if current.duration < fastest.duration then current else fastest) h = h ∨
        t.foldl (fun fastest current =>
          if current.duration < fastest.duration then current else fastest) h ∈ t) ∧
      (t.foldl (fun fastest current =>
          if current.duration < fastest.duration then current else fastest) h).duration
        ≤ h.duration ∧
      ∀ r ∈ t,
        (t.foldl (fun fastest current =>
          if current.duration < fastest.duration then current else fastest) h).duration
          ≤ r.duration := by
  induction t with
  | nil =>
    intro h
    refine ⟨Or.inl rfl, le_refl _, ?_⟩
    intro r hr
    simp at hr
  | cons a t ih =>
    intro h
    rw [List.foldl_cons]
    obtain ⟨hmem, hle, hall⟩ := ih (if a.duration < h.duration then a else h)
    have hboth : (if a.duration < h.duration then a else h).duration ≤ a.duration ∧
        (if a.duration < h.duration then a else h).duration ≤ h.duration := by
      by_cases hlt : a.duration < h.duration
      · rw [if_pos hlt]; exact ⟨le_refl _, le_of_lt hlt⟩
      · rw [if_neg hlt]; exact ⟨le_of_not_lt hlt, le_refl _⟩
    refine ⟨?_, le_trans hle hboth.2, ?_⟩
    · rcases hmem with he | hm
      · by_cases hlt : a.duration < h.duration
        · right
          rw [he, if_pos hlt]
          exact List.mem_cons_self a t
        · left
          rw [he, if_neg hlt]
      · right
        exact List.mem_cons_of_mem a hm
    · intro r hr
      rcases List.mem_cons.mp hr with rfl | hr2
      · exact le_trans hle hboth.1
      · exact hall r hr2

/-- The two-provider registry of the C6 benchmark scenario. -/
def benchTwoRegistry : RegistryState :=
  { catalog := [⟨"A", "A"⟩, ⟨"B", "B"⟩], cache := [], current := none,
    nextId := 0, destroyed := [], initCalls := 0, persisted := none }

/-- The C6 scenario environment: provider A's `scanImage` succeeds in
10 ms, provider B's throws. -/
def benchTwoEnv : String → BenchEnv := fun n =>
  if n = "A" then ⟨.ok (), 0, .ok (some "decoded-text"), 10⟩
  else ⟨.ok (), 0, .error "decoder blew up", 0⟩

/-- C6: `generateReport` computes the summary as specified —
`fastestProvider` is the name of a successful result of minimum
duration (none when no result succeeded), `averageDuration` is the mean
duration over successful results only (0 when none), and `successRate`
is successes over total (the code's 0 for an empty run agreeing with
Lean's 0/0 = 0); and on the concrete scenario {A: succeeds in 10 ms,
B: throws}, `benchmarkImageScan` yields successRate 1/2, fastest "A",
average 10, and a B entry with `success = false` and a populated error
field. -/
theorem c6_report_summary :
    (∀ (tn : String) (results : List BenchmarkResult),
      (results.filter (fun r => r.success) = [] →
        (generateReport tn results).summary.fastestProvider = none) ∧
      (results.filter (fun r => r.success) ≠ [] →
        ∃ r ∈ results.filter (fun r => r.success),
          (generateReport tn results).summary.fastestProvider =
            some r.providerName ∧
          ∀ r2 ∈ results.filter (fun r => r.success),
            r.duration ≤ r2.duration) ∧
      (results.filter (fun r => r.success) = [] →
        (generateReport tn results).summary.averageDuration = 0) ∧
      (results.filter (fun r => r.success) ≠ [] →
        (generateReport tn results).summary.averageDuration =
          ((results.filter (fun r => r.success)).map (fun r => r.duration)).sum
            / ((results.filter (fun r => r.success)).length : Rat)) ∧
      (generateReport tn results).summary.successRate =
        ((results.filter (fun r => r.success)).length : Rat)
          / (results.length : Rat)) ∧
    (benchmarkImageScan benchTwoRegistry true benchTwoEnv "sample.png").2 =
      .ok { testName := "Image Scan - sample.png",
            results := [
              { providerName := "A", success := true, duration := 10,
                error := none, result := some "decoded-text" },
              { providerName := "B", success := false, duration := 0,
                error := some "decoder blew up", result := none }],
            summary := { fastestProvider := some "A",
                         averageDuration := 10, successRate := 1/2 } } := by
  constructor
  · intro tn results
    refine ⟨?_, ?_, ?_, ?_, ?_⟩
    · intro hnil
      simp [generateReport, fastestOf, hnil]
    · intro hne
      rcases hf : results.filter (fun r => r.success) with _ | ⟨h, t⟩
      · exact absurd hf hne
      · obtain ⟨hmem, hle, hall⟩ := fastest_foldl_spec t h
        refine ⟨t.foldl (fun fastest current =>
            if current.duration < fastest.duration then current else fastest) h,
          ?_, ?_, ?_⟩
        · rw [hf]
          rcases hmem with he | hm
          · rw [he]; exact List.mem_cons_self _ _
          · exact List.mem_cons_of_mem _ hm
        · simp [generateReport, fastestOf, hf]
        · intro r2 hr2
          rw [hf] at hr2
          rcases List.mem_cons.mp hr2 with rfl | hr3
          · exact hle
          · exact hall r2 hr3
    · intro hnil
      simp [generateReport, hnil]
    · intro hne
      have hpos : 0 < (results.filter (fun r => r.success)).length :=
        List.length_pos.mpr hne
      simp only [generateReport]
      rw [if_pos hpos]
    · by_cases hres : results = []
      · subst hres
        simp [generateReport]
      · have hpos : 0 < results.length := List.length_pos.mpr hres
        simp only [generateReport]
        rw [if_pos hpos]
  · simp [benchmarkImageScan, benchStep, benchTwoRegistry, benchTwoEnv,
      loadProvider, cacheLookup, findInfo, generateReport, fastestOf,
      truthyOpt]

/-- The A and B result entries of the C6 scenario run, for the witness. -/
def entryA : BenchmarkResult :=
  { providerName := "A", success := true, duration := 10,
    error := none, result := some "decoded-text" }

/-- The failed B entry of the C6 scenario run. -/
def entryB : BenchmarkResult :=
  { providerName := "B", success := false, duration := 0,
    error := some "decoder blew up", result := none }

/-- Witness for C6's hypothesized clauses, at the concrete two-entry
result list of the scenario. -/
theorem c6_report_summary_witness :
    (∃ r ∈ [entryA, entryB].filter (fun r => r.success),
      (generateReport "w" [entryA, entryB]).summary.fastestProvider =
        some r.providerName ∧
      ∀ r2 ∈ [entryA, entryB].filter (fun r => r.success),
        r.duration ≤ r2.duration) ∧
    (generateReport "w" [entryA, entryB]).summary.averageDuration =
      (([entryA, entryB].filter (fun r => r.success)).map
          (fun r => r.duration)).sum
        / (([entryA, entryB].filter (fun r => r.success)).length : Rat) :=
  ⟨((c6_report_summary.1 "w" [entryA, entryB]).2.1)
     (by simp [entryA, entryB]),
   ((c6_report_summary.1 "w" [entryA, entryB]).2.2.2.1)
     (by simp [entryA, entryB])⟩

/-! ## C7 -/

/-- The C7 environment: resolving/loading/initializing the provider
through the registry takes 5 ms, and the `scanImage` call itself
takes 10 ms. -/
def c7Env : String → BenchEnv := fun _ => ⟨.ok (), 5, .ok (some "x"), 10⟩

/-- C7 counterexample: with a 5 ms registry load and a 10 ms scan, the
recorded duration is 15 ms, not the 10 ms of the single `scanImage`
call — `benchmarkImageScan` reads `performance.now()` *before*
`registry.loadProvider`, so provider resolution/loading/initialization
is part of the recorded duration, contrary to the claim. -/
theorem c7_counterexample :
    (benchStep initialRegistry c7Env ⟨"zxing", "ZXing"⟩).2.duration = 15 ∧
    (c7Env "zxing").scanDur = 10 ∧
    ¬ (benchStep initialRegistry c7Env ⟨"zxing", "ZXing"⟩).2.duration =
        (c7Env "zxing").scanDur := by
  refine ⟨?_, rfl, ?_⟩
  · simp [benchStep, c7Env, initialRegistry, loadProvider, cacheLookup,
      findInfo, defaultCatalog]
    norm_num
  · intro h
    rw [show (c7Env "zxing").scanDur = 10 from rfl] at h
    have h15 : (benchStep initialRegistry c7Env ⟨"zxing", "ZXing"⟩).2.duration = 15 := by
      simp [benchStep, c7Env, initialRegistry, loadProvider, cacheLookup,
        findInfo, defaultCatalog]
      norm_num
    rw [h15] at h
    norm_num at h

/-- C7 amended: for every provider whose registry load succeeds and
whose `scanImage` does not throw, the duration recorded by the
`benchmarkImageScan` step is the time from before the registry
load/initialization to after the `scanImage` call — i.e. the sum of the
load time and the scan time, not the scan time alone. -/
theorem c7_amended_duration_includes_load (s : RegistryState)
    (env : String → BenchEnv) (info : ProviderInfo)
    (s1 : RegistryState) (id : Nat) (r : Option String)
    (hload : loadProvider s info.name (env info.name).initRes = (s1, .ok id))
    (hscan : (env info.name).scanRes = .ok r) :
    (benchStep s env info).2.duration =
      (env info.name).loadDur + (env info.name).scanDur := by
  unfold benchStep
  simp only [hload, hscan]

/-- Witness for the amended C7, on a fresh registry with a 5 ms load
and a 10 ms scan. -/
theorem c7_amended_duration_includes_load_witness :
    (benchStep initialRegistry c7Env ⟨"zxing", "ZXing"⟩).2.duration =
      (c7Env "zxing").loadDur + (c7Env "zxing").scanDur :=
  c7_amended_duration_includes_load initialRegistry c7Env ⟨"zxing", "ZXing"⟩
    { initialRegistry with cache := [("zxing", 0)], nextId := 1, initCalls := 1 }
    0 (some "x") (by decide) rfl

/-! ## C8 -/

/-- A sampling-loop frame outcome that does not stop the loop because
nothing was found: a thrown (swallowed) decode error or a null result. -/
def yieldsNoCode : FrameOutcome → Bool
  | .err _ => true
  | .res none => true
  | .res (some _) => false

/-- Whether a frame outcome terminates the sampling loop (the source's
`if (result)` truthiness check). -/
def terminatesLoop : FrameOutcome → Bool
  | .err _ => false
  | .res r => truthy r

/-- C8 counterexample: a frame sequence where only the 5th sampled frame
yields non-null text — the empty string.  The claim says exactly one
success event fires at the 5th call; the code's `if (result)` truthiness
check treats the empty string like null, so the loop makes its 5 calls,
emits no success event, and keeps going. -/
theorem c8_counterexample :
    runLoop [.res none, .res none, .res none, .res none, .res (some "")] =
      (5, 0) ∧
    ¬ runLoop [.res none, .res none, .res none, .res none, .res (some "")] =
        (5, 1) := by
  decide

/-- C8 amended: a decode error never terminates the loop; the loop ends
only on an external `stop()` (exhausting the outcome sequence) or on the
first truthy — non-null *and non-empty* — decoded text, in which case
exactly one success event is emitted and no further `scanVideoFrame`
calls are made.  In particular, when only the (k+1)-st sampled frame
yields non-null non-empty text, exactly k+1 calls are made and exactly
one success event fires; and a sequence with no truthy frame is scanned
in full with no event. -/
theorem c8_loop_termination :
    (∀ (pre : List FrameOutcome) (t : String),
      (∀ f ∈ pre, yieldsNoCode f = true) → t ≠ "" →
      runLoop (pre ++ [.res (some t)]) = (pre.length + 1, 1)) ∧
    (∀ frames : List FrameOutcome,
      (∀ f ∈ frames, terminatesLoop f = false) →
      runLoop frames = (frames.length, 0)) := by
  constructor
  · intro pre t hpre ht
    induction pre with
    | nil =>
      simp [runLoop, truthy, ht]
    | cons f rest ih =>
      have hf := hpre f (List.mem_cons_self _ _)
      have hrest : ∀ g ∈ rest, yieldsNoCode g = true :=
        fun g hg => hpre g (List.mem_cons_of_mem _ hg)
      have hres := ih hrest
      cases f with
      | err m =>
        rw [List.cons_append]
        simp only [runLoop]
        rw [hres]
        simp [List.length_cons]
      | res r =>
        cases r with
        | none =>
          rw [List.cons_append]
          simp only [runLoop, truthy]
          rw [if_neg (by simp)]
          rw [hres]
          simp [List.length_cons]
        | some v => simp [yieldsNoCode] at hf
  · intro frames hframes
    induction frames with
    | nil => rfl
    | cons f rest ih =>
      have hf := hframes f (List.mem_cons_self _ _)
      have hres := ih fun g hg => hframes g (List.mem_cons_of_mem _ hg)
      cases f with
      | err m =>
        simp only [runLoop]
        rw [hres]
        simp [List.length_cons]
      | res r =>
        simp only [terminatesLoop] at hf
        simp only [runLoop]
        rw [if_neg (by rw [hf]; exact Bool.false_ne_true)]
        rw [hres]
        simp [List.length_cons]

/-- Witness for C8's amended loop property: a swallowed decode error and
three null frames followed by a truthy 5th frame give exactly 5 calls
and one success event; four all-null/error frames alone give 4 calls and
no event. -/
theorem c8_loop_termination_witness :
    runLoop [.err "decode blew up", .res none, .res none, .res none,
      .res (some "QR-TEXT")] = (5, 1) ∧
    runLoop [.err "decode blew up", .res none, .res none, .res none] =
      (4, 0) := by
  constructor
  · have := c8_loop_termination.1
      [.err "decode blew up", .res none, .res none, .res none] "QR-TEXT"
      (by decide) (by decide)
    simpa using this
  · have := c8_loop_termination.2
      [.err "decode blew up", .res none, .res none, .res none]
      (by decide)
    simpa using this

/-! ## C9 -/

/-- C9: `scanImageFile` failure classification.  (a) For every file
whose MIME type is not `image/*`, the call rejects with the
invalid-image-file error before constructing an image and without
invoking any provider (and without touching scanner/registry state);
(b) for every valid image file (type ok, context ok, image loads) with
a provider available whose `scanImage` returns null, it rejects with
the no-code-found error after exactly one provider invocation; and the
two rejection messages are distinct. -/
theorem c9_scanImageFile_classification :
    (∀ (s : ScannerState) (inp : FileInput) (initRes : Except String Unit)
       (persistOk readOk : Bool),
      startsWithChars inp.fileType.data "image/".data = false →
      scanImageFile s inp initRes persistOk readOk =
        (s, ⟨.error msgInvalidFile, 0, false⟩)) ∧
    (∀ (s : ScannerState) (inp : FileInput) (initRes : Except String Unit)
       (persistOk readOk : Bool) (id : Nat),
      startsWithChars inp.fileType.data "image/".data = true →
      inp.ctxOk = true → inp.imageLoads = true →
      s.engineProvider = some id → inp.scanRes = .ok none →
      (scanImageFile s inp initRes persistOk readOk).2 =
        ⟨.error msgNoCode, 1, true⟩) ∧
    msgNoCode ≠ msgInvalidFile := by
  refine ⟨?_, ?_, by decide⟩
  · intro s inp initRes persistOk readOk htype
    unfold scanImageFile
    rw [if_pos (by rw [htype]; exact Bool.false_ne_true)]
  · intro s inp initRes persistOk readOk id htype hctx hload hprov hscan
    unfold scanImageFile
    rw [if_neg (by rw [htype]; simp),
        if_neg (by rw [hctx]; simp),
        if_neg (by rw [hload]; simp)]
    rw [hprov, hscan]
    rfl

/-- Witness for C9: a `text/plain` upload is rejected as an invalid
image file with no provider call and no image construction, and a valid
PNG whose provider finds nothing is rejected with the no-code error
after one provider call. -/
theorem c9_scanImageFile_classification_witness :
    scanImageFile ⟨initialRegistry, none, false⟩
        ⟨"text/plain", true, true, .ok none, true⟩ (.ok ()) true true =
      (⟨initialRegistry, none, false⟩,
       ⟨.error msgInvalidFile, 0, false⟩) ∧
    (scanImageFile ⟨regAfterZxing, some 0, false⟩
        ⟨"image/png", true, true, .ok none, true⟩ (.ok ()) true true).2 =
      ⟨.error msgNoCode, 1, true⟩ :=
  ⟨c9_scanImageFile_classification.1 ⟨initialRegistry, none, false⟩
     ⟨"text/plain", true, true, .ok none, true⟩ (.ok ()) true true (by decide),
   c9_scanImageFile_classification.2.1 ⟨regAfterZxing, some 0, false⟩
     ⟨"image/png", true, true, .ok none, true⟩ (.ok ()) true true 0
     (by decide) rfl rfl rfl rfl⟩

/-! ## C10 -/

/-- C10 counterexample: the claim says the engine's cached provider
reference is set *only* by `start()` and `setProvider()`.  But with no
cached provider, a plain `scanImageFile` call also sets it (its
lazy default initialization): starting from a scanner whose cached
reference is `none`, scanning a valid image leaves the cached reference
pointing at the freshly initialized default provider instance 0. -/
theorem c10_counterexample :
    (⟨initialRegistry, none, false⟩ : ScannerState).engineProvider = none ∧
    (scanImageFile ⟨initialRegistry, none, false⟩
        ⟨"image/png", true, true, .ok none, true⟩ (.ok ()) true true).1.engineProvider =
      some 0 := by
  decide

/-- C10 amended: the engine's cached provider reference is set by its
own `start()` (default initialization), `setProvider()`, and
`scanImageFile`'s lazy default initialization; every frame scan uses
this cached reference rather than consulting the registry at scan time,
so a provider switch performed directly on the `ProviderRegistry` leaves
the engine's cached reference — and hence the sampling loop's target —
on the previous, now destroyed, instance. -/
theorem c10_engine_caches_provider_reference :
    (∀ (s : ScannerState) (id : Nat),
      s.engineProvider = some id → scanFrameTarget s = .ok id) ∧
    (∀ (s : ScannerState) (name : String) (initRes : Except String Unit)
       (persistOk : Bool) (id : Nat),
      s.engineProvider = some id → s.reg.current = some id →
      ({ s with reg := (setCurrentProvider s.reg name initRes persistOk).1 }
          : ScannerState).engineProvider = some id ∧
      id ∈ (setCurrentProvider s.reg name initRes persistOk).1.destroyed ∧
      scanFrameTarget
        { s with reg := (setCurrentProvider s.reg name initRes persistOk).1 } =
        .ok id) ∧
    (∀ (s : ScannerState) (inp : FileInput) (initRes : Except String Unit)
       (persistOk readOk : Bool) (r : RegistryState) (id : Nat),
      s.engineProvider = none →
      initializeDefaultProvider s.reg initRes persistOk readOk = (r, .ok id) →
      startsWithChars inp.fileType.data "image/".data = true →
      inp.ctxOk = true → inp.imageLoads = true →
      (scanImageFile s inp initRes persistOk readOk).1.engineProvider =
        some id) := by
  refine ⟨?_, ?_, ?_⟩
  · intro s id h
    unfold scanFrameTarget
    rw [h]
  · intro s name initRes persistOk id heng hcur
    refine ⟨heng, setCurrentProvider_destroyed_mem hcur name initRes persistOk, ?_⟩
    unfold scanFrameTarget
    simp only [heng]
  · intro s inp initRes persistOk readOk r id heng hinit htype hctx hload
    unfold scanImageFile
    rw [if_neg (by rw [htype]; simp),
        if_neg (by rw [hctx]; simp),
        if_neg (by rw [hload]; simp)]
    rw [heng, hinit]
    rcases hv : inp.scanRes with m | v
    · simp [hv]
    · cases htr : truthy v <;> cases hthumb : inp.thumbCtxOk <;>
        simp [hv, htr, hthumb]

/-- Witness for the amended C10: the scanner has cached instance 0
(current in the registry); a direct registry switch to `'zxing-wasm'`
destroys instance 0 yet the engine still targets it; and a
`scanImageFile` on a provider-less scanner caches the default instance. -/
theorem c10_engine_caches_provider_reference_witness :
    scanFrameTarget ⟨regAfterZxing, some 0, true⟩ = .ok 0 ∧
    (({ reg := (setCurrentProvider regAfterZxing "zxing-wasm" (.ok ()) true).1,
        engineProvider := some 0, isScanning := true } : ScannerState).engineProvider =
        some 0 ∧
      0 ∈ (setCurrentProvider regAfterZxing "zxing-wasm" (.ok ()) true).1.destroyed ∧
      scanFrameTarget
        { reg := (setCurrentProvider regAfterZxing "zxing-wasm" (.ok ()) true).1,
          engineProvider := some 0, isScanning := true } = .ok 0) ∧
    (scanImageFile ⟨initialRegistry, none, false⟩
        ⟨"image/png", true, true, .ok (some "hello"), true⟩
        (.ok ()) true true).1.engineProvider = some 0 :=
  ⟨c10_engine_caches_provider_reference.1 ⟨regAfterZxing, some 0, true⟩ 0 rfl,
   c10_engine_caches_provider_reference.2.1
     ⟨regAfterZxing, some 0, true⟩ "zxing-wasm" (.ok ()) true 0 rfl (by decide),
   c10_engine_caches_provider_reference.2.2
     ⟨initialRegistry, none, false⟩
     ⟨"image/png", true, true, .ok (some "hello"), true⟩ (.ok ()) true true
     regAfterZxing 0 rfl (by decide) (by decide) rfl rfl⟩
